import Mathlib

/-!
Verification of the Learning Path Graph Engine (MyH5P_pages).

Shallow embedding of:
  * `src/learningPath/nodeTypes.js`        — node-type catalog and validator
  * `src/learningPath/static/player.js`    — traversal order and progress
  * `src/learningPath/static/editor.js`    — graph mutations
  * the storage layer (`LearningPathStorage`) and the xAPI sender

JavaScript values stored in a node's `data` object are modelled by `JsValue`;
JS objects are modelled by association lists in insertion order (later writes
to the same key overwrite in place, `Object.values` returns first-insertion
order), and JS truthiness is made explicit (`truthy`, `jsOrString`).
Nondeterministic inputs of the source (`Date.now()`, `Math.random()`,
`crypto.randomUUID()`, wall-clock timestamps, the network) are passed in as
explicit parameters.
-/

namespace MyH5P

/-- A JavaScript value as it occurs in a node's `data` map. -/
inductive JsValue where
  | str (s : String)
  | num (q : ℚ)
  | bool (b : Bool)
  | null
  deriving DecidableEq, Repr

/-- JavaScript truthiness of a `JsValue` (`""`, `0`, `false`, `null` are falsy). -/
def truthy : JsValue → Bool
  | .str s => !s.isEmpty
  | .num q => q != 0
  | .bool b => b
  | .null => false

/-- Truthiness of an optional value; `undefined` (absent property) is falsy. -/
def truthyOpt : Option JsValue → Bool
  | none => false
  | some v => truthy v

/-- String interpolation of a `JsValue` (only used for error-message labels). -/
def jsToString : JsValue → String
  | .str s => s
  | .num q => toString q
  | .bool b => if b then "true" else "false"
  | .null => "null"

/-- Property read on a JS object modelled as an association list. -/
def lookupData (d : List (String × JsValue)) (k : String) : Option JsValue :=
  (d.find? (fun p => p.1 == k)).map (fun p => p.2)

/-- Replace the first entry satisfying `p` by `f` of it; used for in-place
object-property updates. -/
def updateFirst {α : Type} (p : α → Bool) (f : α → α) : List α → List α
  | [] => []
  | a :: l => if p a then f a :: l else a :: updateFirst p f l

/-- Property write on a JS object: overwrite the existing key in place, or
append a new key at the end (JS insertion order). -/
def setData (d : List (String × JsValue)) (k : String) (v : JsValue) :
    List (String × JsValue) :=
  if d.any (fun p => p.1 == k) then updateFirst (fun p => p.1 == k) (fun _ => (k, v)) d
  else d ++ [(k, v)]

/-- `Math.round`: round half away from zero on nonnegatives, i.e. `⌊q + 1/2⌋`
(which also matches JS on negatives, where `Math.round(-2.5) = -2`). -/
def jsRound (q : ℚ) : ℤ := ⌊q + 1/2⌋

/-- A node of a learning path (`{ id, type, x, y, data }` in the JSON model). -/
structure PathNode where
  id : String
  type : String
  x : ℚ := 0
  y : ℚ := 0
  data : List (String × JsValue) := []
  deriving DecidableEq, Repr

/-- A connection `{ from, fromPort, to, toPort }`; the JS fields `from` and
`to` are named `fromId`/`toId` here because both are Lean keywords. -/
structure Conn where
  fromId : String
  fromPort : String
  toId : String
  toPort : String
  deriving DecidableEq, Repr

/-- The graph part of a learning path document: `{ nodes, connections }`. -/
structure PathData where
  nodes : List PathNode
  connections : List Conn
  deriving DecidableEq, Repr

/-- A field definition inside a node type (`nodeTypes.js`); the JS property
`type` (text/textarea/…) is named `kind` to avoid clashing with the node's
`type`. `options` is `[]` when absent, `default` is `none` when absent. -/
structure FieldDef where
  name : String
  kind : String
  label : String
  required : Bool := false
  options : List String := []
  dflt : Option JsValue := none
  deriving DecidableEq, Repr

/-- A node type definition from `NODE_TYPES` in `nodeTypes.js`. -/
structure NodeTypeDef where
  id : String
  label : String
  category : String
  color : String
  icon : String
  maxInstances : Option Nat := none
  outputs : List String
  inputs : List String
  fields : List FieldDef
  deriving DecidableEq, Repr

/-- The `NODE_TYPES` catalog of `nodeTypes.js`, as a lookup by type id. -/
def NODE_TYPES : String → Option NodeTypeDef
  | "start" => some
    { id := "start", label := "Start", category := "control", color := "#4CAF50",
      icon := "▶", maxInstances := some 1, outputs := ["next"], inputs := [], fields := [] }
  | "end" => some
    { id := "end", label := "End", category := "control", color := "#f44336",
      icon := "⏹", maxInstances := some 1, outputs := [], inputs := ["prev"],
      fields := [
        { name := "completionMessage", kind := "text", label := "Completion Message",
          dflt := some (.str "Congratulations! You have completed this learning path.") }] }
  | "theory" => some
    { id := "theory", label := "Theory Unit", category := "content", color := "#2196F3",
      icon := "📖", outputs := ["next"], inputs := ["prev"],
      fields := [
        { name := "title", kind := "text", label := "Title", required := true },
        { name := "description", kind := "textarea", label := "Description" },
        { name := "content", kind := "richtext", label := "Content (HTML)" },
        { name := "estimatedMinutes", kind := "number", label := "Estimated Duration (min)",
          dflt := some (.num 15) },
        { name := "passingScore", kind := "number", label := "Passing Score (%)",
          dflt := some (.num 0) }] }
  | "guidedLab" => some
    { id := "guidedLab", label := "Guided Lab", category := "content", color := "#FF9800",
      icon := "🔬", outputs := ["next"], inputs := ["prev"],
      fields := [
        { name := "title", kind := "text", label := "Title", required := true },
        { name := "description", kind := "textarea", label := "Description" },
        { name := "labUrl", kind := "url", label := "Lab Environment URL" },
        { name := "instructions", kind := "richtext", label := "Instructions (HTML)" },
        { name := "estimatedMinutes", kind := "number", label := "Estimated Duration (min)",
          dflt := some (.num 45) },
        { name := "passingScore", kind := "number", label := "Passing Score (%)",
          dflt := some (.num 70) }] }
  | "wiki" => some
    { id := "wiki", label := "Wiki Page", category := "content", color := "#9C27B0",
      icon := "📝", outputs := ["next"], inputs := ["prev"],
      fields := [
        { name := "title", kind := "text", label := "Title", required := true },
        { name := "description", kind := "textarea", label := "Description" },
        { name := "content", kind := "richtext", label := "Wiki Content (HTML)" },
        { name := "estimatedMinutes", kind := "number", label := "Estimated Duration (min)",
          dflt := some (.num 10) }] }
  | "url" => some
    { id := "url", label := "Website URL", category := "content", color := "#00BCD4",
      icon := "🌐", outputs := ["next"], inputs := ["prev"],
      fields := [
        { name := "title", kind := "text", label := "Title", required := true },
        { name := "description", kind := "textarea", label := "Description" },
        { name := "url", kind := "url", label := "URL", required := true },
        { name := "openInNewTab", kind := "checkbox", label := "Open in new tab",
          dflt := some (.bool false) },
        { name := "estimatedMinutes", kind := "number", label := "Estimated Duration (min)",
          dflt := some (.num 10) }] }
  | "h5p" => some
    { id := "h5p", label := "H5P Package", category := "package", color := "#1a73e8",
      icon := "🎓", outputs := ["next"], inputs := ["prev"],
      fields := [
        { name := "title", kind := "text", label := "Title", required := true },
        { name := "description", kind := "textarea", label := "Description" },
        { name := "h5pContentId", kind := "h5p-picker", label := "H5P Content" },
        { name := "estimatedMinutes", kind := "number", label := "Estimated Duration (min)",
          dflt := some (.num 20) },
        { name := "passingScore", kind := "number", label := "Passing Score (%)",
          dflt := some (.num 70) }] }
  | "cmi5" => some
    { id := "cmi5", label := "cmi5 Package", category := "package", color := "#E91E63",
      icon := "📦", outputs := ["next"], inputs := ["prev"],
      fields := [
        { name := "title", kind := "text", label := "Title", required := true },
        { name := "description", kind := "textarea", label := "Description" },
        { name := "packageUrl", kind := "url", label := "Package URL / Launch URL",
          required := true },
        { name := "activityId", kind := "text", label := "Activity ID (IRI)" },
        { name := "moveOn", kind := "select", label := "Move On Criteria",
          options := ["Completed", "Passed", "CompletedOrPassed", "CompletedAndPassed",
            "NotApplicable"],
          dflt := some (.str "CompletedOrPassed") },
        { name := "masteryScore", kind := "number", label := "Mastery Score (%)",
          dflt := some (.num 70) },
        { name := "estimatedMinutes", kind := "number", label := "Estimated Duration (min)",
          dflt := some (.num 30) }] }
  | "scorm" => some
    { id := "scorm", label := "SCORM Package", category := "package", color := "#795548",
      icon := "📚", outputs := ["next"], inputs := ["prev"],
      fields := [
        { name := "title", kind := "text", label := "Title", required := true },
        { name := "description", kind := "textarea", label := "Description" },
        { name := "packageUrl", kind := "url", label := "SCORM Package URL / Launch URL",
          required := true },
        { name := "scormVersion", kind := "select", label := "SCORM Version",
          options := ["1.2", "2004 3rd Edition", "2004 4th Edition"],
          dflt := some (.str "2004 4th Edition") },
        { name := "passingScore", kind := "number", label := "Passing Score (%)",
          dflt := some (.num 70) },
        { name := "estimatedMinutes", kind := "number", label := "Estimated Duration (min)",
          dflt := some (.num 30) }] }
  | "gate" => some
    { id := "gate", label := "Gate (Pass Required)", category := "control", color := "#FF5722",
      icon := "🚧", outputs := ["pass", "fail"], inputs := ["prev"],
      fields := [
        { name := "title", kind := "text", label := "Gate Title",
          dflt := some (.str "Progress Check") },
        { name := "requiredScore", kind := "number", label := "Required Score (%)",
          dflt := some (.num 70) }] }
  | "branch" => some
    { id := "branch", label := "Branch", category := "control", color := "#607D8B",
      icon := "🔀", outputs := ["pathA", "pathB"], inputs := ["prev"],
      fields := [
        { name := "title", kind := "text", label := "Branch Title" },
        { name := "conditionType", kind := "select", label := "Condition",
          options := ["score-based", "learner-choice", "random"],
          dflt := some (.str "learner-choice") },
        { name := "pathALabel", kind := "text", label := "Path A Label",
          dflt := some (.str "Path A") },
        { name := "pathBLabel", kind := "text", label := "Path B Label",
          dflt := some (.str "Path B") }] }
  | _ => none

/-- Result record `{ valid, errors }` of the validators. -/
structure VResult where
  valid : Bool
  errors : List String
  deriving DecidableEq, Repr

/-- `validateNode(node)` from `nodeTypes.js`. -/
def validateNode (node : PathNode) : VResult :=
  match NODE_TYPES node.type with
  | none => ⟨false, ["Unknown node type: " ++ node.type]⟩
  | some td =>
    let errors := (td.fields.filter
      (fun f => f.required && !truthyOpt (lookupData node.data f.name))).map
      (fun f => f.label ++ " is required")
    ⟨errors.isEmpty, errors⟩

/-- Node display label used when prefixing validation messages:
`node.data?.title || NODE_TYPES[node.type]?.label || node.id`. -/
def nodeLabel (node : PathNode) : String :=
  let fallback :=
    match NODE_TYPES node.type with
    | some td => if td.label.isEmpty then node.id else td.label
    | none => node.id
  match lookupData node.data "title" with
  | some v => if truthy v then jsToString v else fallback
  | none => fallback

/-- The Start/End cardinality error messages of `validatePath`, in push
order. -/
def cardinalityErrors (pd : PathData) : List String :=
  let startNodes := pd.nodes.filter (fun n => n.type == "start")
  let endNodes := pd.nodes.filter (fun n => n.type == "end")
  (if startNodes.length == 0 then ["Learning path must have a Start node"] else [])
    ++ (if startNodes.length > 1 then ["Learning path can only have one Start node"] else [])
    ++ (if endNodes.length == 0 then ["Learning path must have an End node"] else [])

/-- The per-node error messages of `validatePath`, each prefixed with the
node's display label. -/
def nodeErrors (pd : PathData) : List String :=
  (pd.nodes.map (fun n =>
    let r := validateNode n
    if r.valid then []
    else r.errors.map (fun e => "[" ++ nodeLabel n ++ "] " ++ e))).flatten

/-- The dangling-connection error messages of `validatePath`. -/
def connectionErrors (pd : PathData) : List String :=
  let nodeIds := pd.nodes.map (fun n => n.id)
  (pd.connections.map (fun c =>
    (if !(nodeIds.contains c.fromId) then
      ["Connection references non-existent source node: " ++ c.fromId] else [])
    ++ (if !(nodeIds.contains c.toId) then
      ["Connection references non-existent target node: " ++ c.toId] else []))).flatten

/-- `validatePath(pathData)` from `nodeTypes.js`. -/
def validatePath (pd : PathData) : VResult :=
  if pd.nodes.isEmpty then ⟨false, ["Learning path must have at least one node"]⟩
  else
    let errors := cardinalityErrors pd ++ nodeErrors pd ++ connectionErrors pd
    ⟨errors.isEmpty, errors⟩

/-! ## Player traversal (player.js)

The repository ships two player implementations in `player.js`-style files:
one whose order builder is `buildNodeOrder` and one whose builder is
`buildTraversalOrder`.  Their `while` loops terminate because each iteration
adds the current node id to the `visited` set and the loop only continues on
an unvisited id; the number of iterations is therefore bounded by the number
of distinct ids reachable, so a fuel of `nodes.length + connections.length + 2`
is never exhausted. -/

/-- Loop body of `buildNodeOrder`: follow the *first* outgoing connection in
connections-list order, push every visited node except Start, stop on a dead
end, an unknown target id, or a revisited node. -/
def buildNodeOrderGo (nodes : List PathNode) (conns : List Conn) :
    Nat → List String → PathNode → List PathNode → List PathNode
  | 0, _, _, acc => acc
  | fuel + 1, visited, current, acc =>
    if visited.contains current.id then acc
    else
      let visited1 := current.id :: visited
      let acc1 := if current.type == "start" then acc else acc ++ [current]
      match conns.filter (fun c => c.fromId == current.id) with
      | [] => acc1
      | c :: _ =>
        match nodes.find? (fun n => n.id == c.toId) with
        | none => acc1
        | some nxt => buildNodeOrderGo nodes conns fuel visited1 nxt acc1

/-- `buildNodeOrder(data)` from the first player (`player.js` lines 41–72). -/
def buildNodeOrder (data : PathData) : List PathNode :=
  match data.nodes.find? (fun n => n.type == "start") with
  | none => data.nodes.filter (fun n => n.type != "start" && n.type != "end")
  | some startNode =>
    let ordered := buildNodeOrderGo data.nodes data.connections
      (data.nodes.length + data.connections.length + 2) [] startNode []
    if ordered.isEmpty then data.nodes.filter (fun n => n.type != "start")
    else ordered

/-- Keys of a JS object in first-insertion order (`Object.keys` semantics for
an object built by repeated assignment). -/
def firstKeys (l : List String) : List String :=
  l.foldl (fun acc x => if acc.contains x then acc else acc ++ [x]) []

/-- JS `a || b` on optional strings: an absent or empty string falls through. -/
def jsOrStr (a b : Option String) : Option String :=
  match a with
  | some s => if s.isEmpty then b else some s
  | none => b

/-- `nextMap[from][port]` of `buildTraversalOrder`: the target of the *last*
connection with this source and port (later assignments overwrite). -/
def nextMapLookup (conns : List Conn) (src port : String) : Option String :=
  (conns.reverse.find? (fun c => c.fromId == src && c.fromPort == port)).map
    (fun c => c.toId)

/-- `Object.values(nextMap[src])[0]`: the value stored under the first-inserted
port key of `src`, i.e. the target of the last connection whose port equals the
first-occurring `fromPort` among connections leaving `src`. -/
def firstPortValue (conns : List Conn) (src : String) : Option String :=
  (firstKeys ((conns.filter (fun c => c.fromId == src)).map
    (fun c => c.fromPort))).head?.bind (fun p => nextMapLookup conns src p)

/-- `outs.next || outs.pass || outs.pathA || Object.values(outs)[0] || null`. -/
def traversalCandidate (conns : List Conn) (src : String) : Option String :=
  jsOrStr (nextMapLookup conns src "next")
    (jsOrStr (nextMapLookup conns src "pass")
      (jsOrStr (nextMapLookup conns src "pathA")
        (jsOrStr (firstPortValue conns src) none)))

/-- `nodeMap[id]`: the *last* node with this id (later entries overwrite). -/
def nodeMapLookup (nodes : List PathNode) (i : String) : Option PathNode :=
  nodes.reverse.find? (fun n => n.id == i)

/-- Loop body of `buildTraversalOrder`: pushes every visited node *including*
Start, follows `next`/`pass`/`pathA` then the first-inserted port. -/
def buildTraversalOrderGo (nodes : List PathNode) (conns : List Conn) :
    Nat → List String → String → List PathNode → List PathNode
  | 0, _, _, acc => acc
  | fuel + 1, visited, current, acc =>
    if visited.contains current then acc
    else
      let visited1 := current :: visited
      let acc1 := acc ++ (match nodeMapLookup nodes current with
        | some n => [n]
        | none => [])
      if conns.any (fun c => c.fromId == current) then
        match traversalCandidate conns current with
        | none => acc1
        | some nxt => buildTraversalOrderGo nodes conns fuel visited1 nxt acc1
      else acc1

/-- `buildTraversalOrder()` from the second player (`player.js` lines 444–476). -/
def buildTraversalOrder (data : PathData) : List PathNode :=
  match data.nodes.find? (fun n => n.type == "start") with
  | none => data.nodes.filter (fun n => n.type != "start" && n.type != "end")
  | some start => buildTraversalOrderGo data.nodes data.connections
      (data.nodes.length + data.connections.length + 2) [] start.id []

/-- Primary forward port of a node type in the sense of the specification:
the port named `next` if declared, else the first-declared output port. -/
def primaryPort (td : NodeTypeDef) : Option String :=
  if td.outputs.contains "next" then some "next" else td.outputs.head?

/-- Loop body of the specification's linearization procedure. -/
def specTraversalGo (nodes : List PathNode) (conns : List Conn) :
    Nat → List String → PathNode → List PathNode → List PathNode
  | 0, _, _, acc => acc
  | fuel + 1, visited, current, acc =>
    if visited.contains current.id then acc
    else
      let visited1 := current.id :: visited
      let acc1 := if current.type == "start" then acc else acc ++ [current]
      match NODE_TYPES current.type with
      | none => acc1
      | some td =>
        match primaryPort td with
        | none => acc1
        | some port =>
          match conns.find? (fun c => c.fromId == current.id && c.fromPort == port) with
          | none => acc1
          | some c =>
            match nodes.find? (fun n => n.id == c.toId) with
            | none => acc1
            | some nxt => specTraversalGo nodes conns fuel visited1 nxt acc1

/-- The linearization procedure exactly as the specification words it (used
only to compare the code's traversal against the claimed one): locate the
single Start node, repeatedly follow the outgoing connection whose `fromPort`
is the type's primary forward port, append each visited node excluding Start,
stop on a node with no matching outgoing connection or on the first revisited
node. -/
def specTraversalOrder (data : PathData) : List PathNode :=
  match data.nodes.filter (fun n => n.type == "start") with
  | [s] => specTraversalGo data.nodes data.connections
      (data.nodes.length + data.connections.length + 2) [] s []
  | _ => []

/-! ## Player progress (player.js `updateProgress`)

A session's per-node state is modelled by the order list together with a
status assignment `σ : String → String`; the JS state object built by the
init loop (`nodeStates[node.id] = …` for each node of the order) then has
value list `(firstKeys (order.map id)).map σ`. -/

/-- `updateProgress` of the first player (lines 305–310): percentage width of
the bar, `(completed / orderedNodes.length) * 100`. -/
def updateProgressFirst (order : List PathNode) (σ : String → String) : ℚ :=
  let completed := (((firstKeys (order.map (fun n => n.id))).map σ).filter
    (fun s => s == "completed")).length
  if order.length > 0 then ((completed : ℚ) / order.length) * 100 else 0

/-- `updateProgress` of the second player (lines 719–727):
`Math.round((completed / total) * 100)` with `total` excluding Start. -/
def updateProgressSecond (order : List PathNode) (σ : String → String) : ℤ :=
  let total := (order.filter (fun n => n.type != "start")).length
  let completed := (((firstKeys (order.map (fun n => n.id))).map σ).filter
    (fun s => s == "completed" || s == "passed")).length
  if total > 0 then jsRound (((completed : ℚ) / total) * 100) else 0

/-! ## Editor graph mutations (editor.js)

`Graph` is the `{ nodes, connections }` portion of the editor's `pathData`;
the remaining fields (title, description, status, lrsConfig) are never read
or written by the graph mutation operations and are omitted.  The generated
node id `'node_' + Date.now() + '_' + Math.random().toString(36).substr(2, 6)`
is passed in as the explicit parameter `genId`. -/

/-- The graph part of the editor's `pathData`. -/
structure Graph where
  nodes : List PathNode
  connections : List Conn
  deriving DecidableEq, Repr

/-- The editor's initial `pathData` graph (`nodes: [], connections: []`). -/
def initialGraph : Graph := ⟨[], []⟩

/-- `addNode(type, x, y)` (editor.js lines 507–539).  Returns the created
node (`none` when the unknown-type or max-instances guard fired) and the
resulting graph.  `if (nt.maxInstances)` is a JS truthiness test, so a
`maxInstances` of `0` disables the cap check. -/
def addNode (g : Graph) (type : String) (x y : ℚ) (genId : String) :
    Option PathNode × Graph :=
  match NODE_TYPES type with
  | none => (none, g)
  | some nt =>
    let capped : Bool :=
      match nt.maxInstances with
      | some m => decide (m ≠ 0) && decide ((g.nodes.filter (fun n => n.type == type)).length ≥ m)
      | none => false
    if capped then (none, g)
    else
      let node : PathNode :=
        { id := genId, type := type,
          x := (jsRound (x / 10) : ℚ) * 10, y := (jsRound (y / 10) : ℚ) * 10,
          data := nt.fields.filterMap (fun (f : FieldDef) => f.dflt.map (fun v => (f.name, v))) }
      (some node, { g with nodes := g.nodes ++ [node] })

/-- `deleteNode(nodeId)` (editor.js lines 541–549). -/
def deleteNode (g : Graph) (nodeId : String) : Graph :=
  { nodes := g.nodes.filter (fun n => n.id != nodeId),
    connections := g.connections.filter (fun c => c.fromId != nodeId && c.toId != nodeId) }

/-- `addConnection(fromId, fromPort, toId, toPort)` (editor.js lines 558–577). -/
def addConnection (g : Graph) (fromId fromPort toId toPort : String) : Graph :=
  if g.connections.any (fun c =>
      c.fromId == fromId && c.fromPort == fromPort && c.toId == toId && c.toPort == toPort) then g
  else if g.connections.any (fun c => c.toId == toId && c.toPort == toPort) then g
  else { g with connections := g.connections ++ [⟨fromId, fromPort, toId, toPort⟩] }

/-- `removeConnection(fromId, fromPort, toId, toPort)` (editor.js lines 579–585). -/
def removeConnection (g : Graph) (fromId fromPort toId toPort : String) : Graph :=
  { g with connections := g.connections.filter (fun c =>
      !(c.fromId == fromId && c.fromPort == fromPort && c.toId == toId && c.toPort == toPort)) }

/-- Node drag update (editor.js lines 424–425): the first node with the
dragged id gets grid-snapped coordinates; `px`/`py` stand for
`pt.x - dragState.offsetX` / `pt.y - dragState.offsetY`. -/
def moveNode (g : Graph) (nodeId : String) (px py : ℚ) : Graph :=
  { g with nodes := updateFirst (fun (n : PathNode) => n.id == nodeId)
                      (fun n => { n with x := (jsRound (px / 10) : ℚ) * 10,
                                         y := (jsRound (py / 10) : ℚ) * 10 }) g.nodes }

/-- `updateField(fieldName, value)` (editor.js lines 655–659) applied to the
node with the given id (the editor applies it to the selected node). -/
def updateNodeField (g : Graph) (nodeId fieldName : String) (value : JsValue) : Graph :=
  { g with nodes := updateFirst (fun (n : PathNode) => n.id == nodeId)
                      (fun n => { n with data := setData n.data fieldName value }) g.nodes }

/-- One editor mutation, with its nondeterministic inputs made explicit. -/
inductive EditOp where
  | addNode (type : String) (x y : ℚ) (genId : String)
  | deleteNode (nodeId : String)
  | addConnection (fromId fromPort toId toPort : String)
  | removeConnection (fromId fromPort toId toPort : String)
  | moveNode (nodeId : String) (px py : ℚ)
  | updateNodeField (nodeId fieldName : String) (value : JsValue)

/-- Apply one mutation to the graph. -/
def applyOp (g : Graph) : EditOp → Graph
  | .addNode type x y genId => (addNode g type x y genId).2
  | .deleteNode nodeId => deleteNode g nodeId
  | .addConnection f fp t tp => addConnection g f fp t tp
  | .removeConnection f fp t tp => removeConnection g f fp t tp
  | .moveNode nodeId px py => moveNode g nodeId px py
  | .updateNodeField nodeId fieldName v => updateNodeField g nodeId fieldName v

/-- Reachability through editor mutations. -/
inductive Reachable : Graph → Graph → Prop where
  | refl (g : Graph) : Reachable g g
  | step {g g1 : Graph} (op : EditOp) : Reachable g g1 → Reachable g (applyOp g1 op)

/-- The single-predecessor invariant: at most one connection terminates at any
given `(toNodeId, toPort)`. -/
def atMostOneIncoming (g : Graph) : Prop :=
  ∀ t tp : String, (g.connections.countP (fun c => c.toId == t && c.toPort == tp)) ≤ 1

/-! ## LearningPathStorage (file-backed store)

The `data/learning-paths/` directory is modelled as an association list from
backing file base-name (the sanitized id) to the stored document; `writeFile`
overwrites in place, `readFile` of a missing file throws (here: `none`).
`crypto.randomUUID()` and `new Date().toISOString()` are explicit
parameters. -/

/-- LRS configuration `{ endpoint, key, secret }`; absent key/secret are
modelled as `""` (the sender normalizes them with `|| ''`). -/
structure LrsConfig where
  endpoint : String
  key : String := ""
  secret : String := ""
  deriving DecidableEq, Repr

/-- A persisted learning-path document. -/
structure PathDoc where
  id : String
  title : String
  description : String
  status : String
  nodes : List PathNode
  connections : List Conn
  lrsConfig : Option LrsConfig
  createdAt : String
  updatedAt : String
  deriving DecidableEq, Repr

/-- A partial document as passed to `create`/`update`: `none` models a JS
`undefined` property.  (`create` additionally treats some falsy present
values as absent, see `create`.) -/
structure DocPatch where
  id : Option String := none
  title : Option String := none
  description : Option String := none
  status : Option String := none
  nodes : Option (List PathNode) := none
  connections : Option (List Conn) := none
  lrsConfig : Option (Option LrsConfig) := none
  createdAt : Option String := none
  updatedAt : Option String := none
  deriving DecidableEq, Repr

/-- A full document viewed as a patch (JS spread `{ ...original }`). -/
def docToPatch (d : PathDoc) : DocPatch :=
  { id := some d.id, title := some d.title, description := some d.description,
    status := some d.status, nodes := some d.nodes, connections := some d.connections,
    lrsConfig := some d.lrsConfig, createdAt := some d.createdAt,
    updatedAt := some d.updatedAt }

/-- The characters kept by `_filePath`'s sanitizer (`[a-zA-Z0-9_-]`). -/
def isSafeChar (c : Char) : Bool :=
  c.isAlphanum || c == '_' || c == '-'

/-- `id.replace(/[^a-zA-Z0-9_-]/g, '')` from `_filePath`. -/
def sanitizeId (id : String) : String :=
  ⟨id.data.filter isSafeChar⟩

/-- The resolved `data/learning-paths` directory (an absolute directory on
disk; its value is irrelevant to the claims). -/
def PATHS_DIR : String := "data/learning-paths"

/-- `_filePath(id)`: `path.join(PATHS_DIR, safeId + '.json')`.  Since the
sanitized name contains no path separators or dots, `path.join` is plain
concatenation with a separator here. -/
def filePath (id : String) : String :=
  PATHS_DIR ++ "/" ++ sanitizeId id ++ ".json"

/-- The data directory: sanitized id ↦ stored document. -/
abbrev Store : Type := List (String × PathDoc)

/-- Read the file named `key + ".json"`, if present. -/
def storeGet (st : Store) (key : String) : Option PathDoc :=
  (st.find? (fun p => p.1 == key)).map (fun p => p.2)

/-- `writeFile`: overwrite the file if present, create it otherwise. -/
def storeSet (st : Store) (key : String) (d : PathDoc) : Store :=
  if st.any (fun p => p.1 == key) then
    updateFirst (fun (p : String × PathDoc) => p.1 == key) (fun _ => (key, d)) st
  else st ++ [(key, d)]

/-- `get(id)` of `LearningPathStorage` (`none` models the `readFile` throw). -/
def storageGet (st : Store) (id : String) : Option PathDoc :=
  storeGet st (sanitizeId id)

/-- JS `a || dflt` for an optional string property. -/
def jsOrString (a : Option String) (dflt : String) : String :=
  match a with
  | some s => if s.isEmpty then dflt else s
  | none => dflt

/-- `create(data)` of `LearningPathStorage`: assigns the generated `uuid` and
`now` timestamps, defaults falsy title/description, forces `status: 'draft'`,
defaults absent nodes/connections/lrsConfig, writes the file and returns the
document.  (JS arrays and objects are truthy, so a present `nodes`,
`connections` or `lrsConfig` value is always kept.) -/
def create (st : Store) (data : DocPatch) (uuid now : String) : PathDoc × Store :=
  let doc : PathDoc :=
    { id := uuid,
      title := jsOrString data.title "Untitled Learning Path",
      description := jsOrString data.description "",
      status := "draft",
      nodes := data.nodes.getD [],
      connections := data.connections.getD [],
      lrsConfig := data.lrsConfig.getD none,
      createdAt := now, updatedAt := now }
  (doc, storeSet st (sanitizeId uuid) doc)

/-- `update(id, data)` of `LearningPathStorage`: fields are taken from the
patch exactly when present (`!== undefined`), `updatedAt` is refreshed;
`none` models the `get` throw on a missing id. -/
def update (st : Store) (id : String) (data : DocPatch) (now : String) :
    Option (PathDoc × Store) :=
  (storageGet st id).map (fun existing =>
    let updated : PathDoc :=
      { existing with
        title := data.title.getD existing.title,
        description := data.description.getD existing.description,
        status := data.status.getD existing.status,
        nodes := data.nodes.getD existing.nodes,
        connections := data.connections.getD existing.connections,
        lrsConfig := data.lrsConfig.getD existing.lrsConfig,
        updatedAt := now }
    (updated, storeSet st (sanitizeId id) updated))

/-- `duplicate(id)` of `LearningPathStorage`:
`create({ ...original, title: original.title + ' (Copy)' })`. -/
def duplicate (st : Store) (id : String) (uuid now : String) :
    Option (PathDoc × Store) :=
  (storageGet st id).map (fun original =>
    create st { docToPatch original with title := some (original.title ++ " (Copy)") }
      uuid now)

/-! ## xAPI sender (`sendStatement`)

The network is an explicit parameter: what would happen if a request were
made.  The WHATWG URL parse of `new URL('statements', endpoint + '/')`
together with `http(s).request`'s supported-protocol check is modelled by
`endpointWellFormed`, a *sufficient* condition for parse success: every
endpoint it accepts parses in Node (for `http(s)` URLs only the scheme, host
and port can make the parser throw; path, query and fragment never do), so
no theorem below asserts resolution on an endpoint where the source's
promise would reject.  Endpoints outside the accepted subset (userinfo,
IP-literal or numeric hosts, punycode labels, host characters beyond
`[A-Za-z0-9_.-]`) are conservatively treated as malformed; the rejection
branch is only ever concluded at `"::"`, which genuinely throws. -/

/-- Whether a host label would trigger punycode decoding (`xn--` prefix,
ASCII case-insensitively), which can throw during domain-to-ASCII. -/
def labelIsPunycode (l : List Char) : Bool :=
  match l with
  | c1 :: c2 :: '-' :: '-' :: _ => c1.toLower == 'x' && c2.toLower == 'n'
  | _ => false

/-- A hostname whose WHATWG parse provably succeeds: nonempty dot-separated
labels over `[A-Za-z0-9_-]`, none punycode, the last one starting with a
letter (so the ends-in-number IPv4 parser is never entered). -/
def hostOk (host : List Char) : Bool :=
  let labels := host.splitOn '.'
  !host.isEmpty
    && labels.all (fun l => !l.isEmpty
        && l.all (fun c => c.isAlphanum || c == '-' || c == '_')
        && !labelIsPunycode l)
    && (match labels.getLast? with
        | some (c :: _) => c.isAlpha
        | _ => false)

/-- The part of the authority from the first `':'` on: either absent, or a
(possibly empty) digit string whose value is at most 65535. -/
def portOk (p : List Char) : Bool :=
  match p with
  | [] => true
  | _ :: digits =>
    digits.all Char.isDigit
      && decide (digits.foldl (fun n c => n * 10 + (c.toNat - 48)) 0 ≤ 65535)

/-- The settlement of the LRS request, as decided by the environment. -/
inductive NetOutcome where
  | err (msg : String)
  | response (status : ℤ) (body : String)
  deriving DecidableEq, Repr

/-- The object `sendStatement` resolves with. -/
structure SendResult where
  stored : Bool
  statusCode : Option ℤ := none
  reason : Option String := none
  responseBody : Option String := none
  deriving DecidableEq, Repr

/-- Settlement of the promise returned by `sendStatement`. -/
inductive PromiseResult where
  | resolved (r : SendResult)
  | rejected
  deriving DecidableEq, Repr

/-- A sufficient condition for `new URL('statements', endpoint + '/')` to
succeed with an `http:`/`https:` protocol (so that `http(s).request` accepts
it): a case-insensitive `http://` or `https://` scheme followed by an
authority without userinfo or IP literals whose host satisfies `hostOk` and
whose optional port satisfies `portOk`; everything after the first `/`, `?`
or `#` is path/query/fragment and cannot make the parser throw. -/
def endpointWellFormed (s : String) : Bool :=
  let lower8 := (s.data.take 8).map Char.toLower
  let rest? : Option (List Char) :=
    if lower8 == "https://".data then some (s.data.drop 8)
    else if lower8.take 7 == "http://".data then some (s.data.drop 7)
    else none
  match rest? with
  | none => false
  | some rest =>
    let authority := rest.takeWhile (fun c => c != '/' && c != '?' && c != '#')
    if authority.any (fun c => c == '@' || c == '[' || c == ']') then false
    else
      hostOk (authority.takeWhile (fun c => c != ':'))
        && portOk (authority.dropWhile (fun c => c != ':'))

/-- `sendStatement(lrsConfig, statement)` (xAPI module lines 276–318).  The
first component records whether a network request was attempted.  The
statement body itself does not influence the result and is omitted. -/
def sendStatement (cfg : Option LrsConfig) (net : NetOutcome) :
    Bool × PromiseResult :=
  match cfg with
  | none => (false, .resolved { stored := false, reason := some "No LRS configured" })
  | some c =>
    if c.endpoint.isEmpty then
      (false, .resolved { stored := false, reason := some "No LRS configured" })
    else if !endpointWellFormed c.endpoint then (false, .rejected)
    else
      match net with
      | .err msg => (true, .resolved { stored := false, reason := some msg })
      | .response status body =>
        (true, .resolved { stored := decide (200 ≤ status) && decide (status < 300),
                           statusCode := some status, responseBody := some body })

/-! ## Shared lemmas -/

/-- `addNode` never touches the connection list. -/
theorem addNode_connections (g : Graph) (type : String) (x y : ℚ) (genId : String) :
    ((addNode g type x y genId).2).connections = g.connections := by
  unfold addNode
  cases NODE_TYPES type with
  | none => rfl
  | some nt =>
    dsimp only
    split
    · rfl
    · rfl

/-- `moveNode` never touches the connection list. -/
theorem moveNode_connections (g : Graph) (nodeId : String) (px py : ℚ) :
    (moveNode g nodeId px py).connections = g.connections := rfl

/-- `updateNodeField` never touches the connection list. -/
theorem updateNodeField_connections (g : Graph) (nodeId fieldName : String) (v : JsValue) :
    (updateNodeField g nodeId fieldName v).connections = g.connections := rfl

/-- Every editor mutation preserves the single-predecessor invariant. -/
theorem applyOp_preserves (g : Graph) (op : EditOp) (h : atMostOneIncoming g) :
    atMostOneIncoming (applyOp g op) := by
  intro t tp
  cases op with
  | addNode type x y genId =>
    simpa only [applyOp, addNode_connections] using h t tp
  | deleteNode nodeId =>
    exact le_trans (List.Sublist.countP_le _ (List.filter_sublist _)) (h t tp)
  | removeConnection f fp t0 tp0 =>
    exact le_trans (List.Sublist.countP_le _ (List.filter_sublist _)) (h t tp)
  | moveNode nodeId px py =>
    simpa only [applyOp, moveNode_connections] using h t tp
  | updateNodeField nodeId fieldName v =>
    simpa only [applyOp, updateNodeField_connections] using h t tp
  | addConnection f fp t0 tp0 =>
    simp only [applyOp, addConnection]
    split
    · exact h t tp
    split
    · exact h t tp
    rename_i hfree
    simp only [List.countP_append]
    by_cases hmatch :
        ((⟨f, fp, t0, tp0⟩ : Conn).toId == t && (⟨f, fp, t0, tp0⟩ : Conn).toPort == tp) = true
    · obtain ⟨ht, htp⟩ := by simpa [Bool.and_eq_true, beq_iff_eq] using hmatch
      have hzero : g.connections.countP (fun c => c.toId == t && c.toPort == tp) = 0 := by
        rw [List.countP_eq_zero]
        intro c hc hcp
        apply hfree
        refine List.any_eq_true.mpr ⟨c, hc, ?_⟩
        simpa [← ht, ← htp] using hcp
      simp [hzero, List.countP_cons, hmatch]
    · simp [List.countP_cons, hmatch]
      exact h t tp

/-- The invariant is preserved along any chain of editor mutations. -/
theorem reachable_preserves (g0 g : Graph) (h0 : atMostOneIncoming g0)
    (hr : Reachable g0 g) : atMostOneIncoming g := by
  induction hr with
  | refl => exact h0
  | step op _ ih => exact applyOp_preserves _ op ih

/-! ## Claim C4 -/

/-- C4: a connection request whose destination input port is already occupied
(in particular an identical existing connection) leaves the connection list
unchanged, and the single-predecessor invariant — at most one connection
terminating at any `(toNodeId, toPort)` — is preserved by every editor
mutation, hence holds of every graph reachable from an invariant-satisfying
graph, in particular from the editor's initial empty graph. -/
theorem c4_theorem :
    (∀ (g : Graph) (f fp t tp : String),
      ((∃ c ∈ g.connections, c.toId = t ∧ c.toPort = tp)
        ∨ (⟨f, fp, t, tp⟩ : Conn) ∈ g.connections) →
      addConnection g f fp t tp = g)
    ∧ (∀ g0 g : Graph, atMostOneIncoming g0 → Reachable g0 g → atMostOneIncoming g)
    ∧ atMostOneIncoming initialGraph := by
  refine ⟨?_, reachable_preserves, ?_⟩
  · intro g f fp t tp hyp
    have hocc : (∃ c ∈ g.connections, c.toId = t ∧ c.toPort = tp) := by
      rcases hyp with h | h
      · exact h
      · exact ⟨_, h, rfl, rfl⟩
    unfold addConnection
    split
    · rfl
    split
    · rfl
    rename_i hfree
    exfalso
    apply hfree
    obtain ⟨c, hc, ht, htp⟩ := hocc
    exact List.any_eq_true.mpr ⟨c, hc, by simp [ht, htp]⟩
  · intro t tp
    simp [initialGraph]

/-- A concrete graph with one occupied input port `("e","prev")`. -/
def occupiedGraph : Graph := ⟨[], [⟨"a", "next", "e", "prev"⟩]⟩

/-- Witness for C4 at a concrete graph: the second connection into the
occupied port `("e","prev")` is rejected, and the invariant bound holds at
that port for the graph reached from the initial graph by adding the first
connection. -/
theorem c4_witness :
    addConnection occupiedGraph "b" "next" "e" "prev" = occupiedGraph
    ∧ (occupiedGraph.connections.countP
        (fun c => c.toId == "e" && c.toPort == "prev")) ≤ 1 := by
  constructor
  · exact c4_theorem.1 occupiedGraph "b" "next" "e" "prev"
      (Or.inl ⟨⟨"a", "next", "e", "prev"⟩, by decide, rfl, rfl⟩)
  · have hreach : Reachable initialGraph occupiedGraph := by
      have h := @Reachable.step initialGraph initialGraph
        (.addConnection "a" "next" "e" "prev") (.refl _)
      have heq : applyOp initialGraph (.addConnection "a" "next" "e" "prev")
          = occupiedGraph := by decide
      rwa [heq] at h
    exact c4_theorem.2.1 initialGraph occupiedGraph c4_theorem.2.2 hreach "e" "prev"

/-! ## Claim C5 -/

/-- C5: `deleteNode` removes the node and every connection whose source or
destination is the deleted id (and nothing else), so no surviving connection
references the deleted node id. -/
theorem c5_theorem (g : Graph) (nodeId : String) :
    (∀ n ∈ (deleteNode g nodeId).nodes, n.id ≠ nodeId)
    ∧ (∀ c ∈ (deleteNode g nodeId).connections, c.fromId ≠ nodeId ∧ c.toId ≠ nodeId)
    ∧ (∀ n ∈ g.nodes, n.id ≠ nodeId → n ∈ (deleteNode g nodeId).nodes)
    ∧ (∀ c ∈ g.connections, c.fromId ≠ nodeId → c.toId ≠ nodeId →
        c ∈ (deleteNode g nodeId).connections) := by
  refine ⟨?_, ?_, ?_, ?_⟩
  · intro n hn
    have := (List.mem_filter.mp hn).2
    simpa [bne_iff_ne] using this
  · intro c hc
    have := (List.mem_filter.mp hc).2
    simpa [bne_iff_ne] using this
  · intro n hn hne
    exact List.mem_filter.mpr ⟨hn, by simpa [bne_iff_ne] using hne⟩
  · intro c hc h1 h2
    exact List.mem_filter.mpr ⟨hc, by simp [bne_iff_ne, h1, h2]⟩

/-- A concrete two-node graph with three connections touching node `a`
or only node `b`. -/
def triGraph : Graph :=
  ⟨[{ id := "a", type := "theory" }, { id := "b", type := "theory" }],
    [⟨"a", "next", "b", "prev"⟩, ⟨"b", "next", "a", "prev"⟩, ⟨"b", "pass", "b", "prev"⟩]⟩

/-- Witness for C5 at `triGraph`: the surviving self-connection of `b` does
not reference the deleted node `a`, node `b` survives, and the `b→b`
connection survives. -/
theorem c5_witness :
    ((⟨"b", "pass", "b", "prev"⟩ : Conn).fromId ≠ "a"
      ∧ (⟨"b", "pass", "b", "prev"⟩ : Conn).toId ≠ "a")
    ∧ ({ id := "b", type := "theory" } : PathNode) ∈ (deleteNode triGraph "a").nodes
    ∧ (⟨"b", "pass", "b", "prev"⟩ : Conn) ∈ (deleteNode triGraph "a").connections := by
  refine ⟨?_, ?_, ?_⟩
  · exact (c5_theorem triGraph "a").2.1 ⟨"b", "pass", "b", "prev"⟩ (by decide)
  · exact (c5_theorem triGraph "a").2.2.1 { id := "b", type := "theory" } (by decide)
      (by decide)
  · exact (c5_theorem triGraph "a").2.2.2 ⟨"b", "pass", "b", "prev"⟩ (by decide)
      (by decide) (by decide)

/-! ## Claim C3 -/

/-- A graph already holding a node whose id has the generated
`node_<timestamp>_<random>` shape (for instance loaded from a stored path). -/
def clashGraph : Graph := ⟨[{ id := "node_1700000000000_abc123", type := "theory" }], []⟩

/-- C3 counterexample: `addNode` performs no uniqueness check on the
generated id `'node_' + Date.now() + '_' + <random>`.  When the generator's
output coincides with an id already in the graph (the graph may hold
arbitrary ids loaded from storage, and the generator itself can repeat
within one millisecond), the created node's id is *not* fresh: it already
occurs in the graph, contradicting the claim that the new node always gets
"a fresh id not already present in the graph". -/
theorem c3_counterexample :
    ((addNode clashGraph "theory" 0 0 "node_1700000000000_abc123").1.map
      (fun n => n.id)) = some "node_1700000000000_abc123"
    ∧ (clashGraph.nodes.map (fun n => n.id)).contains "node_1700000000000_abc123" = true := by
  exact ⟨rfl, rfl⟩

/-- C3 as amended: with `maxInstances = 1` and one existing instance the
request is rejected and the graph is returned unchanged; below the cap a
node is created and appended whose field values come from the field
definitions' defaults and whose id is the generated string — which is fresh
*whenever* the generator's output differs from every existing id (the code
performs no check). -/
theorem c3_theorem :
    (∀ (g : Graph) (type : String) (nt : NodeTypeDef) (x y : ℚ) (genId : String),
      NODE_TYPES type = some nt → nt.maxInstances = some 1 →
      (g.nodes.filter (fun n => n.type == type)).length = 1 →
      addNode g type x y genId = (none, g))
    ∧ (∀ (g : Graph) (type : String) (nt : NodeTypeDef) (x y : ℚ) (genId : String),
      NODE_TYPES type = some nt →
      (∀ m, nt.maxInstances = some m → m ≠ 0 →
        (g.nodes.filter (fun n => n.type == type)).length < m) →
      ∃ node,
        addNode g type x y genId = (some node, { g with nodes := g.nodes ++ [node] })
        ∧ node.id = genId ∧ node.type = type
        ∧ (∀ f ∈ nt.fields, ∀ v, f.dflt = some v → (f.name, v) ∈ node.data)
        ∧ (genId ∉ g.nodes.map (fun n => n.id) → ∀ n ∈ g.nodes, n.id ≠ node.id)) := by
  constructor
  · intro g type nt x y genId hNT hmax hcount
    unfold addNode
    rw [hNT]
    simp only [hmax, hcount]
    norm_num
  · intro g type nt x y genId hNT hcap
    unfold addNode
    rw [hNT]
    have hcapped :
        (match nt.maxInstances with
          | some m => decide (m ≠ 0)
              && decide ((g.nodes.filter (fun n => n.type == type)).length ≥ m)
          | none => false) = false := by
      cases hm : nt.maxInstances with
      | none => simp only [hm]
      | some m =>
        simp only [hm]
        by_cases hm0 : m = 0
        · simp [hm0]
        · have := hcap m hm hm0
          simp [hm0, Nat.not_le.mpr this]
    simp only [hcapped, if_false]
    refine ⟨_, rfl, rfl, rfl, ?_, ?_⟩
    · intro f hf v hv
      apply List.mem_filterMap.mpr
      exact ⟨f, hf, by simp [hv]⟩
    · intro hfresh n hn
      intro hEq
      exact hfresh (by simpa [hEq] using List.mem_map_of_mem (fun n => n.id) hn)

/-- A graph holding the single allowed Start instance. -/
def startGraph : Graph := ⟨[{ id := "s1", type := "start" }], []⟩

/-- Witness for C3 at concrete inputs: a second Start node is rejected with
the graph unchanged, and a Theory node below the cap is created with the
supplied fresh id. -/
theorem c3_witness :
    addNode startGraph "start" 5 5 "s2" = (none, startGraph)
    ∧ (addNode startGraph "theory" 14 16 "th1").1.map (fun n => n.id) = some "th1" := by
  constructor
  · exact c3_theorem.1 startGraph "start" _ 5 5 "s2" rfl rfl (by decide)
  · obtain ⟨node, heq, hid, -⟩ := c3_theorem.2 startGraph "theory" _ 14 16 "th1" rfl
      (by intro m hm hm0; exact Option.noConfusion hm)
    rw [heq]
    simp [hid]

/-! ## Claim C1 -/

/-- The Start node of the specification's example scenario. -/
def sNode : PathNode := { id := "s", type := "start" }

/-- The Theory node of the specification's example scenario. -/
def tNode : PathNode := { id := "t", type := "theory", data := [("title", .str "Intro")] }

/-- The End node of the specification's example scenario. -/
def eNode : PathNode := { id := "e", type := "end" }

/-- The example scenario: `s.next→t.prev`, `t.next→e.prev`. -/
def scenarioPath : PathData :=
  { nodes := [sNode, tNode, eNode],
    connections := [⟨"s", "next", "t", "prev"⟩, ⟨"t", "next", "e", "prev"⟩] }

/-- A second Theory node used in the port-mismatch example. -/
def uNode : PathNode := { id := "u", type := "theory", data := [("title", .str "U")] }

/-- A path whose Theory node `t` has two outgoing connections, the one listed
first using a port that is not the type's primary forward port `next`. -/
def bogusPortPath : PathData :=
  { nodes := [sNode, tNode, uNode, eNode],
    connections := [⟨"s", "next", "t", "prev"⟩, ⟨"t", "bogus", "u", "prev"⟩,
      ⟨"t", "next", "e", "prev"⟩] }

/-- `buildNodeOrderGo` only ever appends non-Start nodes to an accumulator of
non-Start nodes. -/
theorem buildNodeOrderGo_no_start (nodes : List PathNode) (conns : List Conn) :
    ∀ (fuel : Nat) (visited : List String) (cur : PathNode) (acc : List PathNode),
      (∀ n ∈ acc, n.type ≠ "start") →
      ∀ n ∈ buildNodeOrderGo nodes conns fuel visited cur acc, n.type ≠ "start" := by
  intro fuel
  induction fuel with
  | zero => intro visited cur acc hacc; exact hacc
  | succ fuel ih =>
    intro visited cur acc hacc
    have key : ∀ acc1 : List PathNode, (∀ n ∈ acc1, n.type ≠ "start") →
        ∀ n ∈ (match conns.filter (fun (c : Conn) => c.fromId == cur.id) with
          | [] => acc1
          | c :: _ =>
            match nodes.find? (fun (n : PathNode) => n.id == c.toId) with
            | none => acc1
            | some nxt => buildNodeOrderGo nodes conns fuel (cur.id :: visited) nxt acc1),
          n.type ≠ "start" := by
      intro acc1 h1
      split
      · exact h1
      split
      · exact h1
      · exact ih _ _ _ h1
    have hacc1 : ∀ n ∈ (if cur.type == "start" then acc else acc ++ [cur]),
        n.type ≠ "start" := by
      split
      · exact hacc
      · rename_i hne
        intro n hn
        rcases List.mem_append.mp hn with h | h
        · exact hacc n h
        · have : n = cur := by simpa using h
          subst this
          simpa [beq_iff_eq] using hne
    unfold buildNodeOrderGo
    split
    · exact hacc
    dsimp only
    exact key _ hacc1

/-- No node of type `start` ever appears in a `buildNodeOrder` result. -/
theorem buildNodeOrder_no_start (data : PathData) :
    ∀ n ∈ buildNodeOrder data, n.type ≠ "start" := by
  unfold buildNodeOrder
  split
  · intro n hn
    have := (List.mem_filter.mp hn).2
    simp only [Bool.and_eq_true, bne_iff_ne] at this
    exact this.1
  · dsimp only
    split
    · intro n hn
      have := (List.mem_filter.mp hn).2
      simpa [bne_iff_ne] using this
    · exact buildNodeOrderGo_no_start _ _ _ _ _ _ (by intro n h; cases h)

/-- C1 counterexample: the claim's traversal procedure (formalised verbatim
as `specTraversalOrder`) disagrees with both order builders in the code.  On
the specification's own example scenario, `buildTraversalOrder` *includes
the Start node*, yielding `["s","t","e"]` instead of the claimed `["t","e"]`;
and on a path whose first-listed outgoing connection of `t` uses a port other
than the primary forward port `next`, `buildNodeOrder` follows that first
connection regardless of its `fromPort`, yielding `["t","u"]` where the
claimed port-based procedure yields `["t","e"]`. -/
theorem c1_counterexample :
    (buildTraversalOrder scenarioPath).map (fun n => n.id) = ["s", "t", "e"]
    ∧ (specTraversalOrder scenarioPath).map (fun n => n.id) = ["t", "e"]
    ∧ (buildNodeOrder bogusPortPath).map (fun n => n.id) = ["t", "u"]
    ∧ (specTraversalOrder bogusPortPath).map (fun n => n.id) = ["t", "e"]
    ∧ (["s", "t", "e"] : List String) ≠ ["t", "e"]
    ∧ (["t", "u"] : List String) ≠ ["t", "e"] := by
  refine ⟨rfl, rfl, rfl, rfl, by decide, by decide⟩

/-- C1 as amended: `buildNodeOrder` follows, at each node, the *first*
outgoing connection in connections-list order (regardless of `fromPort`),
appends each visited node excluding Start, and stops at a dead end or the
first revisited node — on the example scenario it yields `["t","e"]` and it
never emits a Start node; `buildTraversalOrder` follows the ports
`next`/`pass`/`pathA` and then the first-recorded port, and appends each
visited node *including* Start, yielding `["s","t","e"]` on the scenario. -/
theorem c1_theorem :
    (buildNodeOrder scenarioPath).map (fun n => n.id) = ["t", "e"]
    ∧ (buildTraversalOrder scenarioPath).map (fun n => n.id) = ["s", "t", "e"]
    ∧ (buildNodeOrder bogusPortPath).map (fun n => n.id) = ["t", "u"]
    ∧ ∀ (data : PathData), ∀ n ∈ buildNodeOrder data, n.type ≠ "start" := by
  exact ⟨rfl, rfl, rfl, buildNodeOrder_no_start⟩

/-- Witness for C1's general clause at the concrete scenario: the Theory
node is in the built order and indeed not a Start node. -/
theorem c1_witness : tNode.type ≠ "start" :=
  c1_theorem.2.2.2 scenarioPath tNode (by decide)

/-! ## Claim C2 -/

/-- Claim-side predicate: every `required` field of the node's type
definition is present and truthy in the node's `data` (vacuously true for a
type absent from the catalog). -/
def requiredFieldsFilled (n : PathNode) : Bool :=
  match NODE_TYPES n.type with
  | some td => td.fields.all (fun f => !f.required || truthyOpt (lookupData n.data f.name))
  | none => true

/-- A node whose type is not in the catalog. -/
def mysteryNode : PathNode := { id := "q", type := "mystery" }

/-- A path with exactly one Start, one End, no required field missing, but an
unknown-typed node and a connection from a non-existent node id. -/
def cexValidatePath : PathData :=
  { nodes := [sNode, eNode, mysteryNode],
    connections := [⟨"ghost", "next", "e", "prev"⟩] }

/-- A node passing all `validateNode` checks produces no errors. -/
theorem validateNode_valid (n : PathNode) (h1 : (NODE_TYPES n.type).isSome = true)
    (h2 : requiredFieldsFilled n = true) : validateNode n = ⟨true, []⟩ := by
  obtain ⟨td, htd⟩ := Option.isSome_iff_exists.mp h1
  unfold validateNode
  rw [htd]
  unfold requiredFieldsFilled at h2
  rw [htd] at h2
  have hfil : td.fields.filter
      (fun f => f.required && !truthyOpt (lookupData n.data f.name)) = [] := by
    rw [List.filter_eq_nil_iff]
    intro f hf
    have hok := List.all_eq_true.mp h2 f hf
    simp only [Bool.or_eq_true, Bool.not_eq_true'] at hok
    simp only [Bool.and_eq_true, Bool.not_eq_true', not_and]
    intro hreq
    rcases hok with h | h
    · rw [hreq] at h; cases h
    · simp [h]
  simp [hfil]

/-- C2 counterexample: the path `cexValidatePath` satisfies every premise of
the claim's `valid:true` clause — exactly one Start node, one End node, and
every required field of every node present — yet `validatePath` reports
`valid:false`, because the validator additionally rejects unknown node types
and connections whose endpoints do not exist.  The claim's premise omits
those two conditions. -/
theorem c2_counterexample :
    (cexValidatePath.nodes.filter (fun n => n.type == "start")).length = 1
    ∧ (cexValidatePath.nodes.filter (fun n => n.type == "end")).length = 1
    ∧ cexValidatePath.nodes.all requiredFieldsFilled = true
    ∧ validatePath cexValidatePath
        = ⟨false, ["[q] Unknown node type: mystery",
            "Connection references non-existent source node: ghost"]⟩ := by
  exact ⟨rfl, rfl, rfl, rfl⟩

/-- C2 as amended: an empty path short-circuits with the single
at-least-one-node error; a nonempty path with zero Start nodes reports
`valid:false` with the "must have a Start node" message, and with zero End
nodes the "must have an End node" message; and a path with exactly one
Start, at least one End, every node of a known type with all required
fields present and truthy, and every connection endpoint among the path's
node ids validates as `valid:true` with an empty error list. -/
theorem c2_theorem :
    (∀ cs : List Conn, validatePath ⟨[], cs⟩
      = ⟨false, ["Learning path must have at least one node"]⟩)
    ∧ (∀ pd : PathData, pd.nodes ≠ [] →
        (pd.nodes.filter (fun n => n.type == "start")).length = 0 →
        (validatePath pd).valid = false
          ∧ "Learning path must have a Start node" ∈ (validatePath pd).errors)
    ∧ (∀ pd : PathData, pd.nodes ≠ [] →
        (pd.nodes.filter (fun n => n.type == "end")).length = 0 →
        (validatePath pd).valid = false
          ∧ "Learning path must have an End node" ∈ (validatePath pd).errors)
    ∧ (∀ pd : PathData,
        (pd.nodes.filter (fun n => n.type == "start")).length = 1 →
        1 ≤ (pd.nodes.filter (fun n => n.type == "end")).length →
        (∀ n ∈ pd.nodes, (NODE_TYPES n.type).isSome = true
          ∧ requiredFieldsFilled n = true) →
        (∀ c ∈ pd.connections,
          (pd.nodes.map (fun n => n.id)).contains c.fromId = true
          ∧ (pd.nodes.map (fun n => n.id)).contains c.toId = true) →
        validatePath pd = ⟨true, []⟩) := by
  refine ⟨?_, ?_, ?_, ?_⟩
  · intro cs
    rfl
  · intro pd hne h0
    have hie : pd.nodes.isEmpty = false := by
      simpa [List.isEmpty_iff] using hne
    have hmem : "Learning path must have a Start node" ∈ cardinalityErrors pd := by
      unfold cardinalityErrors
      simp [h0]
    have hvp : validatePath pd
        = ⟨(cardinalityErrors pd ++ nodeErrors pd ++ connectionErrors pd).isEmpty,
            cardinalityErrors pd ++ nodeErrors pd ++ connectionErrors pd⟩ := by
      unfold validatePath
      rw [hie]
      rfl
    rw [hvp]
    have hmem1 : "Learning path must have a Start node"
        ∈ cardinalityErrors pd ++ nodeErrors pd ++ connectionErrors pd := by
      exact List.mem_append.mpr (Or.inl (List.mem_append.mpr (Or.inl hmem)))
    refine ⟨?_, hmem1⟩
    have : cardinalityErrors pd ++ nodeErrors pd ++ connectionErrors pd ≠ [] :=
      List.ne_nil_of_mem hmem1
    simpa [List.isEmpty_iff] using this
  · intro pd hne h0
    have hie : pd.nodes.isEmpty = false := by
      simpa [List.isEmpty_iff] using hne
    have hmem : "Learning path must have an End node" ∈ cardinalityErrors pd := by
      unfold cardinalityErrors
      simp [h0]
    have hvp : validatePath pd
        = ⟨(cardinalityErrors pd ++ nodeErrors pd ++ connectionErrors pd).isEmpty,
            cardinalityErrors pd ++ nodeErrors pd ++ connectionErrors pd⟩ := by
      unfold validatePath
      rw [hie]
      rfl
    rw [hvp]
    have hmem1 : "Learning path must have an End node"
        ∈ cardinalityErrors pd ++ nodeErrors pd ++ connectionErrors pd := by
      exact List.mem_append.mpr (Or.inl (List.mem_append.mpr (Or.inl hmem)))
    refine ⟨?_, hmem1⟩
    have : cardinalityErrors pd ++ nodeErrors pd ++ connectionErrors pd ≠ [] :=
      List.ne_nil_of_mem hmem1
    simpa [List.isEmpty_iff] using this
  · intro pd hstart hend hNodes hConns
    have hne : pd.nodes ≠ [] := by
      intro h
      rw [h] at hstart
      simp at hstart
    have hie : pd.nodes.isEmpty = false := by
      simpa [List.isEmpty_iff] using hne
    have hcard : cardinalityErrors pd = [] := by
      unfold cardinalityErrors
      have hend0 : ((pd.nodes.filter (fun n => n.type == "end")).length == 0) = false := by
        simp only [beq_eq_false_iff_ne]
        omega
      simp [hstart, hend0]
    have hnode : nodeErrors pd = [] := by
      unfold nodeErrors
      rw [List.flatten_eq_nil_iff]
      intro l hl
      obtain ⟨n, hn, rfl⟩ := List.mem_map.mp hl
      have hv := validateNode_valid n (hNodes n hn).1 (hNodes n hn).2
      simp [hv]
    have hconn : connectionErrors pd = [] := by
      unfold connectionErrors
      rw [List.flatten_eq_nil_iff]
      intro l hl
      obtain ⟨c, hc, rfl⟩ := List.mem_map.mp hl
      rcases hConns c hc with ⟨h1, h2⟩
      rw [h1, h2]
      rfl
    unfold validatePath
    rw [hie]
    simp [hcard, hnode, hconn]

/-- Witness for C2 at concrete inputs: the zero-Start clause on a single
Theory node, and the all-good clause on a Start–End path. -/
theorem c2_witness :
    ((validatePath ⟨[tNode], []⟩).valid = false
      ∧ "Learning path must have a Start node" ∈ (validatePath ⟨[tNode], []⟩).errors)
    ∧ validatePath ⟨[sNode, eNode], []⟩ = ⟨true, []⟩ := by
  constructor
  · exact c2_theorem.2.1 ⟨[tNode], []⟩ (by decide) (by decide)
  · exact c2_theorem.2.2.2 ⟨[sNode, eNode], []⟩ (by decide) (by decide)
      (by decide) (by decide)

/-! ## Storage lemmas -/

/-- A nonempty string is not `isEmpty`. -/
theorem isEmpty_false_of_ne (s : String) (h : s ≠ "") : s.isEmpty = false := by
  rw [Bool.eq_false_iff]
  intro hh
  exact h ((String.isEmpty_iff s).mp hh)

/-- Reading back an overwritten-in-place key yields the written document. -/
theorem storeGet_updateFirst (key : String) (d : PathDoc) :
    ∀ st : Store, st.any (fun p => p.1 == key) = true →
      storeGet (updateFirst (fun (p : String × PathDoc) => p.1 == key)
        (fun _ => (key, d)) st) key = some d := by
  intro st
  induction st with
  | nil => intro h; cases h
  | cons p rest ih =>
    intro h
    by_cases hp : (p.1 == key) = true
    · simp [updateFirst, hp, storeGet, List.find?]
    · have h1 : rest.any (fun p => p.1 == key) = true := by
        simpa [List.any_cons, hp] using h
      have := ih h1
      simp only [updateFirst, hp, if_false, Bool.false_eq_true]
      simpa [storeGet, List.find?, hp] using this

/-- Reading back a freshly appended key yields the written document. -/
theorem storeGet_append (key : String) (d : PathDoc) :
    ∀ st : Store, st.any (fun p => p.1 == key) = false →
      storeGet (st ++ [(key, d)]) key = some d := by
  intro st
  induction st with
  | nil => intro _; simp [storeGet, List.find?]
  | cons p rest ih =>
    intro h
    have hp : (p.1 == key) = false := by
      by_contra hc
      simp only [Bool.not_eq_false] at hc
      simp [List.any_cons, hc] at h
    have h1 : rest.any (fun p => p.1 == key) = false := by
      simpa [List.any_cons, hp] using h
    simpa [storeGet, List.find?, hp] using ih h1

/-- `writeFile` then `readFile` of the same key yields the written
document. -/
theorem storeGet_storeSet (st : Store) (key : String) (d : PathDoc) :
    storeGet (storeSet st key d) key = some d := by
  unfold storeSet
  split
  · rename_i h
    exact storeGet_updateFirst key d st h
  · rename_i h
    rw [Bool.not_eq_true] at h
    exact storeGet_append key d st h

/-! ## Claim C7 -/

/-- A partial document carrying an explicit `published` status. -/
def publishedPatch : DocPatch := { title := some "My Path", status := some "published" }

/-- C7 counterexample: `create` forces `status: 'draft'`, so the document it
returns (and that `get` then yields) differs from the input document in more
than the server-assigned id and timestamps — an input with
`status: "published"` comes back with `status: "draft"`.  (`create` likewise
replaces a falsy title/description by defaults.) -/
theorem c7_counterexample :
    publishedPatch.status = some "published"
    ∧ (create [] publishedPatch "u1" "T1").1.status = "draft"
    ∧ ("draft" : String) ≠ "published" := by
  exact ⟨rfl, rfl, by decide⟩

/-- C7 as amended: `create` followed by `get` of the assigned id returns
exactly the document `create` returned, which keeps every *truthy* provided
title/description and every provided nodes/connections/lrsConfig value,
assigns the generated id and timestamps, and forces `status` to `draft`;
`update` followed by `get` reflects exactly the fields present in the patch
with all other fields unchanged except `updatedAt`. -/
theorem c7_theorem :
    (∀ (st : Store) (data : DocPatch) (uuid now : String),
      storageGet (create st data uuid now).2 uuid = some (create st data uuid now).1
      ∧ (create st data uuid now).1.id = uuid
      ∧ (create st data uuid now).1.createdAt = now
      ∧ (create st data uuid now).1.updatedAt = now
      ∧ (create st data uuid now).1.status = "draft"
      ∧ (∀ ttl, data.title = some ttl → ttl ≠ "" → (create st data uuid now).1.title = ttl)
      ∧ (∀ d, data.description = some d → d ≠ "" →
          (create st data uuid now).1.description = d)
      ∧ (∀ ns, data.nodes = some ns → (create st data uuid now).1.nodes = ns)
      ∧ (∀ cs, data.connections = some cs → (create st data uuid now).1.connections = cs)
      ∧ (∀ lc, data.lrsConfig = some lc → (create st data uuid now).1.lrsConfig = lc))
    ∧ (∀ (st : Store) (id : String) (data : DocPatch) (now : String) (existing : PathDoc),
        storageGet st id = some existing →
        ∃ upd st1, update st id data now = some (upd, st1)
          ∧ storageGet st1 id = some upd
          ∧ upd.id = existing.id
          ∧ upd.createdAt = existing.createdAt
          ∧ upd.updatedAt = now
          ∧ upd.title = data.title.getD existing.title
          ∧ upd.description = data.description.getD existing.description
          ∧ upd.status = data.status.getD existing.status
          ∧ upd.nodes = data.nodes.getD existing.nodes
          ∧ upd.connections = data.connections.getD existing.connections
          ∧ upd.lrsConfig = data.lrsConfig.getD existing.lrsConfig) := by
  constructor
  · intro st data uuid now
    refine ⟨storeGet_storeSet st (sanitizeId uuid) _, rfl, rfl, rfl, rfl,
      ?_, ?_, ?_, ?_, ?_⟩
    · intro ttl h hne
      have hie : ttl.isEmpty = false := isEmpty_false_of_ne ttl hne
      simp [create, jsOrString, h, hie]
    · intro d h hne
      have hie : d.isEmpty = false := isEmpty_false_of_ne d hne
      simp [create, jsOrString, h, hie]
    · intro ns h
      simp [create, h]
    · intro cs h
      simp [create, h]
    · intro lc h
      simp [create, h]
  · intro st id data now existing hget
    unfold update
    rw [hget]
    exact ⟨_, _, rfl, storeGet_storeSet st (sanitizeId id) _, rfl, rfl, rfl, rfl,
      rfl, rfl, rfl, rfl, rfl⟩

/-- A one-document store keyed by the (already sanitized) id `u0`. -/
def origDoc : PathDoc :=
  { id := "u0", title := "Orig", description := "", status := "draft",
    nodes := [], connections := [], lrsConfig := none,
    createdAt := "T0", updatedAt := "T0" }

/-- The store holding only `origDoc`. -/
def oneDocStore : Store := [("u0", origDoc)]

/-- Witness for C7 at concrete inputs: the created document round-trips
through `get`, and an update of the title alone is reflected by `get` with
the other fields untouched. -/
theorem c7_witness :
    storageGet (create [] publishedPatch "u1" "T1").2 "u1"
      = some (create [] publishedPatch "u1" "T1").1
    ∧ (update oneDocStore "u0" { title := some "New" } "T2").map
        (fun r => (r.1.title, r.1.description, r.1.status, r.1.createdAt, r.1.updatedAt))
      = some ("New", "", "draft", "T0", "T2") := by
  constructor
  · exact (c7_theorem.1 [] publishedPatch "u1" "T1").1
  · obtain ⟨upd, st1, heq, -, -, hcr, hup, htitle, hdesc, hstat, -⟩ :=
      c7_theorem.2 oneDocStore "u0" { title := some "New" } "T2" origDoc rfl
    rw [heq]
    simp [htitle, hdesc, hstat, hcr, hup, origDoc]

/-! ## Claim C8 -/

/-- C8 counterexample: `duplicate` takes its new id from `crypto.randomUUID()`
without comparing it to the original's id; when the generator's output equals
the original id, the duplicate's id is *not* distinct from the original's,
contradicting the claim's "new id distinct from the original". -/
theorem c8_counterexample :
    (duplicate oneDocStore "u0" "u0" "T1").map (fun r => r.1.id) = some "u0"
    ∧ (storageGet oneDocStore "u0").map (fun d => d.id) = some "u0" := by
  exact ⟨rfl, rfl⟩

/-- C8 as amended: `duplicate(id)` produces a document whose id is the
generator's output — distinct from the original's id whenever the generator's
output differs from it — whose title is the original title suffixed with
`" (Copy)"`, and whose nodes and connections equal the original's. -/
theorem c8_theorem (st : Store) (id uuid now : String) (original : PathDoc)
    (hget : storageGet st id = some original) :
    ∃ doc st1, duplicate st id uuid now = some (doc, st1)
      ∧ doc.id = uuid
      ∧ doc.title = original.title ++ " (Copy)"
      ∧ doc.nodes = original.nodes
      ∧ doc.connections = original.connections
      ∧ (uuid ≠ original.id → doc.id ≠ original.id) := by
  unfold duplicate
  rw [hget]
  refine ⟨_, _, rfl, rfl, ?_, rfl, rfl, ?_⟩
  · have hne : (original.title ++ " (Copy)") ≠ "" := by
      intro h
      have hlen := congrArg String.length h
      rw [String.length_append] at hlen
      have h7 : (" (Copy)" : String).length = 7 := rfl
      have h0 : ("" : String).length = 0 := rfl
      rw [h7, h0] at hlen
      omega
    have hie : (original.title ++ " (Copy)").isEmpty = false :=
      isEmpty_false_of_ne _ hne
    show jsOrString (some (original.title ++ " (Copy)")) "Untitled Learning Path"
      = original.title ++ " (Copy)"
    simp [jsOrString, hie]
  · intro hneq hEq
    exact hneq hEq

/-- Witness for C8 at concrete inputs: duplicating `u0` with a fresh uuid
`u1` yields id `u1` and title `Orig (Copy)`. -/
theorem c8_witness :
    (duplicate oneDocStore "u0" "u1" "T1").map (fun r => (r.1.id, r.1.title)) =
      some ("u1", "Orig (Copy)") := by
  obtain ⟨doc, st1, heq, hid, htitle, -⟩ :=
    c8_theorem oneDocStore "u0" "u1" "T1" origDoc rfl
  rw [heq]
  simp [hid, htitle, origDoc]

/-! ## Claim C10 -/

/-- C10: the storage layer resolves the backing file name by dropping every
character outside `[a-zA-Z0-9_-]` (the kept characters form a subsequence of
the id, all of them safe), so the resulting path is always directly inside
the learning-paths data directory — the file's base name contains no path
separator and no dot — and two ids with the same safe-character subsequence
map to the same file. -/
theorem c10_theorem :
    (∀ id : String, (sanitizeId id).data = id.data.filter isSafeChar
      ∧ (sanitizeId id).data.Sublist id.data
      ∧ ∀ c ∈ (sanitizeId id).data, isSafeChar c = true)
    ∧ (∀ id : String, filePath id = PATHS_DIR ++ "/" ++ sanitizeId id ++ ".json"
      ∧ ∀ c ∈ (sanitizeId id).data, c ≠ '/' ∧ c ≠ '\\' ∧ c ≠ '.')
    ∧ (∀ id1 id2 : String, id1.data.filter isSafeChar = id2.data.filter isSafeChar →
        filePath id1 = filePath id2) := by
  have hmem : ∀ id : String, ∀ c ∈ (sanitizeId id).data, isSafeChar c = true := by
    intro id c hc
    exact (List.mem_filter.mp hc).2
  refine ⟨?_, ?_, ?_⟩
  · intro id
    exact ⟨rfl, List.filter_sublist _, hmem id⟩
  · intro id
    refine ⟨rfl, ?_⟩
    intro c hc
    have h := hmem id c hc
    refine ⟨?_, ?_, ?_⟩
    · intro hEq; subst hEq; exact absurd h (by decide)
    · intro hEq; subst hEq; exact absurd h (by decide)
    · intro hEq; subst hEq; exact absurd h (by decide)
  · intro id1 id2 h
    unfold filePath sanitizeId
    rw [h]

/-- Witness for C10 at concrete inputs: a path-traversal id resolves to the
same in-directory file as its stripped form, and a kept character is not a
separator or dot. -/
theorem c10_witness :
    filePath "../a/b" = filePath "ab"
    ∧ ('a' ≠ '/' ∧ 'a' ≠ '\\' ∧ 'a' ≠ '.') := by
  exact ⟨c10_theorem.2.2 "../a/b" "ab" (by decide),
    (c10_theorem.2.1 "a.b").2 'a' (by decide)⟩

/-! ## Claim C6 -/

/-- C6 counterexample: an endpoint that is configured (truthy) but not a
parseable URL — `"::"` — makes `new URL('statements', '::/')` throw a
`TypeError` synchronously inside the `Promise` executor, so the promise
returned by `sendStatement` *rejects*, contradicting "sendStatement never
rejects".  No network request is attempted. -/
theorem c6_counterexample :
    sendStatement (some { endpoint := "::" }) (.err "connection refused")
      = (false, .rejected)
    ∧ sendStatement (some { endpoint := "::" }) (.response 200 "")
      = (false, .rejected) := by
  exact ⟨rfl, rfl⟩

/-- C6 as amended: provided the configured endpoint is a well-formed
`http(s)` URL (here: satisfies the sufficient parse-success condition
`endpointWellFormed`), `sendStatement` never rejects; with a null or
endpoint-less configuration it resolves to `{stored:false, reason:"No LRS
configured"}` without any network attempt; a transport error resolves to
`{stored:false, reason: <message>}`; a received response resolves with
`stored` true exactly when the status code lies in `[200, 300)`.  (An
endpoint that fails URL parsing makes the promise reject, see the
counterexample at `"::"`.) -/
theorem c6_theorem :
    (∀ net : NetOutcome, sendStatement none net
      = (false, .resolved { stored := false, reason := some "No LRS configured" }))
    ∧ (∀ (c : LrsConfig) (net : NetOutcome), c.endpoint = "" →
        sendStatement (some c) net
          = (false, .resolved { stored := false, reason := some "No LRS configured" }))
    ∧ (∀ (c : LrsConfig) (msg : String), endpointWellFormed c.endpoint = true →
        sendStatement (some c) (.err msg)
          = (true, .resolved { stored := false, reason := some msg }))
    ∧ (∀ (c : LrsConfig) (status : ℤ) (body : String),
        endpointWellFormed c.endpoint = true →
        ∃ r, sendStatement (some c) (.response status body) = (true, .resolved r)
          ∧ (r.stored = true ↔ 200 ≤ status ∧ status < 300)
          ∧ r.statusCode = some status) := by
  have hne : ∀ s : String, endpointWellFormed s = true → s.isEmpty = false := by
    intro s h
    by_cases hs : s = ""
    · subst hs
      exact absurd h (by decide)
    · exact isEmpty_false_of_ne s hs
  refine ⟨fun net => rfl, ?_, ?_, ?_⟩
  · intro c net h
    have hie : c.endpoint.isEmpty = true := by rw [h]; rfl
    simp [sendStatement, hie]
  · intro c msg h
    simp [sendStatement, hne c.endpoint h, h]
  · intro c status body h
    refine ⟨⟨decide (200 ≤ status) && decide (status < 300), some status, none,
      some body⟩, ?_, ?_, rfl⟩
    · simp [sendStatement, hne c.endpoint h, h]
    · simp [Bool.and_eq_true, decide_eq_true_eq]

/-- Witness for C6 at a concrete well-formed endpoint: a transport error
resolves (does not reject) with the error message as reason. -/
theorem c6_witness :
    sendStatement (some { endpoint := "https://lrs.example.com" }) (.err "ECONNREFUSED")
      = (true, .resolved { stored := false, reason := some "ECONNREFUSED" }) := by
  exact c6_theorem.2.2.1 { endpoint := "https://lrs.example.com" } "ECONNREFUSED"
    (by decide)

/-! ## Claim C9 -/

/-- The claim's progress numerator: order entries whose status is completed
or passed. -/
def claimProgressNumerator (order : List PathNode) (σ : String → String) : ℕ :=
  (order.filter (fun n => σ n.id == "completed" || σ n.id == "passed")).length

/-- The claim's progress denominator: all order entries excluding the Start
node. -/
def claimProgressDenominator (order : List PathNode) : ℕ :=
  (order.filter (fun n => n.type != "start")).length

/-- Inserting the elements of a duplicate-free list disjoint from the
accumulator appends them in order. -/
theorem foldl_insert_of_nodup :
    ∀ (l acc : List String), l.Nodup → (∀ x ∈ l, x ∉ acc) →
      l.foldl (fun acc x => if acc.contains x then acc else acc ++ [x]) acc
        = acc ++ l := by
  intro l
  induction l with
  | nil => intro acc _ _; simp
  | cons a t ih =>
    intro acc hnd hdis
    have hac : acc.contains a = false := by
      rw [Bool.eq_false_iff]
      intro hc
      exact hdis a (List.mem_cons_self a t) (List.mem_of_elem_eq_true hc)
    rw [List.foldl_cons, hac]
    simp only [Bool.false_eq_true, if_false]
    rw [ih (acc ++ [a]) (List.Nodup.of_cons hnd) ?_]
    · simp
    · intro x hx hmem
      rcases List.mem_append.mp hmem with h | h
      · exact hdis x (List.mem_cons_of_mem a hx) h
      · have hxa : x = a := by simpa using h
        subst hxa
        exact (List.nodup_cons.mp hnd).1 hx

/-- On duplicate-free keys the JS object keeps every key in order. -/
theorem firstKeys_of_nodup (l : List String) (h : l.Nodup) : firstKeys l = l := by
  unfold firstKeys
  simpa using foldl_insert_of_nodup l [] h (by simp)

/-- Filtering a mapped list counts the preimages satisfying the composed
predicate. -/
theorem length_filter_map_eq {α β : Type} (g : α → β) (p : β → Bool) (l : List α) :
    ((l.map g).filter p).length = (l.filter (fun a => p (g a))).length := by
  induction l with
  | nil => rfl
  | cons a t ih =>
    by_cases hp : p (g a) = true
    · simp [hp, ih]
    · simp only [Bool.not_eq_true] at hp
      simp [hp, ih]

/-- The status-value count over the session's state object equals the count
over the order entries, for duplicate-free order ids. -/
theorem stateValues_count (order : List PathNode) (σ : String → String)
    (p : String → Bool) (h : (order.map (fun n => n.id)).Nodup) :
    (((firstKeys (order.map (fun n => n.id))).map σ).filter p).length
      = (order.filter (fun n => p (σ n.id))).length := by
  rw [firstKeys_of_nodup _ h, List.map_map]
  simpa [Function.comp] using
    length_filter_map_eq (fun (n : PathNode) => σ n.id) p order

/-- C9: at any point of a session (any status assignment), the progress both
players compute equals the claimed fraction — the number of order entries
whose status is completed or passed over the number of order entries
excluding the Start node (as a percentage; the second player rounds to a
whole percent).  For the first player the order is `buildNodeOrder`'s, which
contains no Start node and whose states never hold `passed`. -/
theorem c9_theorem :
    (∀ (data : PathData) (σ : String → String),
      ((buildNodeOrder data).map (fun n => n.id)).Nodup →
      (∀ i, σ i ≠ "passed") →
      0 < (buildNodeOrder data).length →
      updateProgressFirst (buildNodeOrder data) σ
        = 100 * (claimProgressNumerator (buildNodeOrder data) σ : ℚ)
            / (claimProgressDenominator (buildNodeOrder data)))
    ∧ (∀ (order : List PathNode) (σ : String → String),
        (order.map (fun n => n.id)).Nodup →
        0 < claimProgressDenominator order →
        updateProgressSecond order σ
          = jsRound (100 * (claimProgressNumerator order σ : ℚ)
              / (claimProgressDenominator order))) := by
  constructor
  · intro data σ hnd hnp hlen
    have h1 := stateValues_count (buildNodeOrder data) σ (fun s => s == "completed") hnd
    have h2 : claimProgressNumerator (buildNodeOrder data) σ
        = ((buildNodeOrder data).filter (fun n => σ n.id == "completed")).length := by
      unfold claimProgressNumerator
      congr 1
      apply List.filter_congr
      intro n _
      have hp : (σ n.id == "passed") = false := by
        rw [beq_eq_false_iff_ne]
        exact hnp n.id
      simp [hp]
    have h3 : claimProgressDenominator (buildNodeOrder data)
        = (buildNodeOrder data).length := by
      unfold claimProgressDenominator
      congr 1
      apply List.filter_eq_self.mpr
      intro n hn
      simpa [bne_iff_ne] using buildNodeOrder_no_start data n hn
    unfold updateProgressFirst
    rw [if_pos hlen, h1, h2, h3]
    ring
  · intro order σ hnd hden
    have h1 := stateValues_count order σ
      (fun s => s == "completed" || s == "passed") hnd
    have hpos : 0 < (order.filter (fun n => n.type != "start")).length := hden
    unfold updateProgressSecond
    rw [if_pos hpos, h1]
    unfold claimProgressNumerator claimProgressDenominator
    congr 1
    ring

/-- The all-completed status assignment used by the witness. -/
def allCompleted : String → String := fun _ => "completed"

/-- Witness for C9 at the example scenario with every node completed. -/
theorem c9_witness :
    updateProgressSecond (buildTraversalOrder scenarioPath) allCompleted
      = jsRound (100 * (claimProgressNumerator (buildTraversalOrder scenarioPath)
            allCompleted : ℚ)
          / (claimProgressDenominator (buildTraversalOrder scenarioPath)))
    ∧ updateProgressFirst (buildNodeOrder scenarioPath) allCompleted
      = 100 * (claimProgressNumerator (buildNodeOrder scenarioPath) allCompleted : ℚ)
          / (claimProgressDenominator (buildNodeOrder scenarioPath)) := by
  constructor
  · exact c9_theorem.2 (buildTraversalOrder scenarioPath) allCompleted
      (by decide) (by decide)
  · exact c9_theorem.1 scenarioPath allCompleted (by decide)
      (fun i => by unfold allCompleted; decide) (by decide)

end MyH5P
